import Mathlib

/-!
Verification of the alchemix bar-server wrapper.

Shallow embedding of the two source files:
  * `src/docker/bar-server/health_endpoint.py` — `add_health_endpoint`,
    which registers a `/health` route on a FastAPI application;
  * `src/docker/bar-server/bar_server_wrapper.py` — the module body that
    loads the environment, constructs a `BarQueryConstructor`, installs it
    into the `example_server` module's `query_constructor` slot, attaches
    the health endpoint, and (when run directly) reads the `PORT`
    environment variable and starts a uvicorn listener on `0.0.0.0`.

Object identity (Python references) is modelled by natural-number object
ids; side effects of the module body are modelled by an explicit event
trace; the uncaught `ValueError` from `int()` on a bad `PORT` value is
modelled by an outcome type.
-/

namespace BarServer

/-- A request-handling context: the Application state and prior request
history visible to a handler.  The Python health handler takes no
arguments; handlers in this model receive the context so that we can state
that the health handler's result does not depend on it. -/
structure ReqContext where
  history : List String
  appState : Nat
  deriving Repr

/-- A JSON-object response, as an association list of string keys to string
values (the shape of the dict returned by the health handler). -/
def Response : Type := List (String × String)

/-- One entry of a FastAPI application's route table: a path and the
registered handler. -/
structure Route where
  path : String
  handler : ReqContext → Response

/-- The FastAPI Application object: its route table.  (Embeds the mutable
`app` object from `example_server`; mutation is modelled functionally.) -/
structure Application where
  routes : List Route

/-- The Python coroutine `health` defined inside `add_health_endpoint`:
`return {"status": "healthy", "service": "bar-server"}`.  It ignores all
state. -/
def healthHandler (_ctx : ReqContext) : Response :=
  [("status", "healthy"), ("service", "bar-server")]

/-- `add_health_endpoint(app)` from `health_endpoint.py`: registers the
`health` handler at path `"/health"` on `app` (FastAPI's `@app.get`
appends a route to the route table). -/
def add_health_endpoint (app : Application) : Application :=
  { app with routes := app.routes ++ [⟨"/health", healthHandler⟩] }

/-! ### Python `int()` on strings

`bar_server_wrapper.py` resolves the port with `int(os.getenv("PORT", 8001))`.
`pythonInt` embeds CPython's `int(str)` on ASCII strings: surrounding
whitespace is stripped, one optional sign is allowed, then a non-empty run
of decimal digits in which single underscores may appear between digits;
anything else raises `ValueError`, modelled as `none`. -/

/-- Whitespace characters stripped by Python's `int()` (ASCII). -/
def pyIsSpace (c : Char) : Bool :=
  c = ' ' || c = '\t' || c = '\n' || c = '\x0d' || c = '\x0b' || c = '\x0c'

/-- Strip leading and trailing Python whitespace. -/
def pyStrip (cs : List Char) : List Char :=
  ((cs.dropWhile pyIsSpace).reverse.dropWhile pyIsSpace).reverse

/-- Validity of the tail of a digit run: every character is a decimal
digit, except that a single underscore may stand between two digits. -/
def pyDigitTail : List Char → Bool
  | [] => true
  | '_' :: [] => false
  | '_' :: '_' :: _ => false
  | '_' :: c :: cs => c.isDigit && pyDigitTail cs
  | c :: cs => c.isDigit && pyDigitTail cs

/-- Validity of a digit run for Python `int()`: non-empty, starts with a
digit, underscores only between digits. -/
def pyValidDigits : List Char → Bool
  | [] => false
  | c :: cs => c.isDigit && pyDigitTail cs

/-- Numeric value of a run of decimal digits (underscores removed). -/
def digitsVal (cs : List Char) : Nat :=
  (cs.filter (fun c => c ≠ '_')).foldl (fun acc c => 10 * acc + (c.toNat - '0'.toNat)) 0

/-- Parse an optional sign followed by a digit run. -/
def pySignedDigits : List Char → Option Int
  | '+' :: rest => if pyValidDigits rest then some (digitsVal rest) else none
  | '-' :: rest => if pyValidDigits rest then some (-(digitsVal rest : Int)) else none
  | cs => if pyValidDigits cs then some (digitsVal cs) else none

/-- Python's `int(s)` for a string `s`: `some n` on success, `none` when it
raises `ValueError`. -/
def pythonInt (s : String) : Option Int :=
  pySignedDigits (pyStrip s.data)

/-! ### The environment and `os.getenv` -/

/-- A process environment: a finite association of variable names to
string values. -/
def Env : Type := List (String × String)

/-- `os.getenv(name)`: the value of `name` in the environment, if set. -/
def getenv (env : Env) (name : String) : Option String :=
  (env.find? (fun kv => kv.1 = name)).map (fun kv => kv.2)

/-- `int(os.getenv("PORT", 8001))`: when `PORT` is absent `os.getenv`
returns the default `8001` (already an `int`, so `int(8001) = 8001`);
when `PORT` is set its string value is parsed by `int()`, `none` meaning
the uncaught `ValueError`. -/
def resolvePort (env : Env) : Option Int :=
  match getenv env "PORT" with
  | none => some 8001
  | some s => pythonInt s

/-! ### The wrapper module body -/

/-- The state of the `example_server` collaborator module: the object id
of its `app` (the base Application), the Application's contents, and the
object id currently held by its module-level `query_constructor` slot. -/
structure ExampleServerModule where
  appId : Nat
  app : Application
  queryConstructor : Nat

/-- Observable side effects of running `bar_server_wrapper.py`, in program
order. -/
inductive Event where
  | loadDotenv
  | constructQC (id : Nat)
  | assignQC (id : Nat)
  | addHealth
  | readPort (p : Int)
  | listen (host : String) (port : Int)
  deriving DecidableEq, Repr

/-- The wrapper module after its import-time body has run: the mutated
`example_server` module, and `app`, the reference exposed by the line
`app = base_app` (an object id — no copy is made). -/
structure WrapperModule where
  exampleServer : ExampleServerModule
  appRef : Nat

/-- What happens in the `if __name__ == "__main__"` block. -/
inductive MainOutcome where
  | notRun
  | uncaughtValueError
  | listenStarted (host : String) (port : Int)
  deriving DecidableEq, Repr

/-- Import-time body of `bar_server_wrapper.py`: `load_dotenv()`; construct
`BarQueryConstructor` (a fresh object, id `newId`); assign it to
`example_server.query_constructor`; `add_health_endpoint(base_app)`;
`app = base_app`.  Returns the event trace and the resulting module. -/
def importWrapper (es : ExampleServerModule) (newId : Nat) :
    List Event × WrapperModule :=
  let barConstructorId := newId
  let es1 := { es with queryConstructor := barConstructorId }
  let es2 := { es1 with app := add_health_endpoint es1.app }
  ([Event.loadDotenv, Event.constructQC barConstructorId,
    Event.assignQC barConstructorId, Event.addHealth],
   ⟨es2, es2.appId⟩)

/-- Running `bar_server_wrapper.py`: the import-time body always runs;
when `isMain` (the module is run directly, `__name__ == "__main__"`) the
port is resolved — a `ValueError` from `int()` propagates uncaught before
any listener is started — and `uvicorn.run(app, host="0.0.0.0", port=port)`
binds the listener. -/
def runWrapper (isMain : Bool) (env : Env) (es : ExampleServerModule)
    (newId : Nat) : List Event × WrapperModule × MainOutcome :=
  let r := importWrapper es newId
  if isMain then
    match resolvePort env with
    | none => (r.1, r.2, MainOutcome.uncaughtValueError)
    | some p =>
        (r.1 ++ [Event.readPort p, Event.listen "0.0.0.0" p], r.2,
         MainOutcome.listenStarted "0.0.0.0" p)
  else
    (r.1, r.2, MainOutcome.notRun)

/-- Recogniser for `assignQC` events (used to state that exactly one
assignment into the query-constructor slot ever happens). -/
def isAssignQC : Event → Bool
  | Event.assignQC _ => true
  | _ => false

/-- Recogniser for `listen` events. -/
def isListen : Event → Bool
  | Event.listen _ _ => true
  | _ => false

/-! ### Helper lemmas -/

/-- The module produced by the wrapper is the import-time module, whatever
happens in the `__main__` block. -/
theorem runWrapper_module (isMain : Bool) (env : Env)
    (es : ExampleServerModule) (newId : Nat) :
    (runWrapper isMain env es newId).2.1 = (importWrapper es newId).2 := by
  unfold runWrapper
  cases isMain
  · rfl
  · cases h : resolvePort env <;> simp [h]

/-- When run directly and the port resolves, the trace is the import-time
trace followed by the port read and the listener start. -/
theorem runWrapper_trace_some (env : Env) (es : ExampleServerModule)
    (newId : Nat) (p : Int) (h : resolvePort env = some p) :
    (runWrapper true env es newId).1 =
      (importWrapper es newId).1 ++
        [Event.readPort p, Event.listen "0.0.0.0" p] := by
  unfold runWrapper
  simp [h]

/-- When run directly and the port does not resolve, the trace is just the
import-time trace. -/
theorem runWrapper_trace_none (env : Env) (es : ExampleServerModule)
    (newId : Nat) (h : resolvePort env = none) :
    (runWrapper true env es newId).1 = (importWrapper es newId).1 := by
  unfold runWrapper
  simp [h]

/-! ### The claims -/

/-- C1: every invocation of the handler registered at path `"/health"` by
`add_health_endpoint` — in every Application state and after any prior
request history — returns exactly
`{"status": "healthy", "service": "bar-server"}`; the registered route is
the `healthHandler`, and `healthHandler` is a total pure function of its
context whose value never depends on it. -/
theorem health_handler_constant (app : Application) (ctx : ReqContext) :
    (add_health_endpoint app).routes.getLast? =
      some ⟨"/health", healthHandler⟩ ∧
    healthHandler ctx = [("status", "healthy"), ("service", "bar-server")] := by
  refine ⟨?_, rfl⟩
  simp [add_health_endpoint]

/-- C2: if the `PORT` environment variable is set to a string that Python's
`int()` rejects, running the module directly ends in the uncaught
`ValueError` and no `listen` event ever appears in the trace: the listener
is never bound. -/
theorem nonnumeric_port_no_listener (env : Env) (es : ExampleServerModule)
    (newId : Nat) (s : String) (hs : getenv env "PORT" = some s)
    (hbad : pythonInt s = none) :
    (runWrapper true env es newId).2.2 = MainOutcome.uncaughtValueError ∧
    ∀ e ∈ (runWrapper true env es newId).1, isListen e = false := by
  have hres : resolvePort env = none := by simp [resolvePort, hs, hbad]
  constructor
  · unfold runWrapper
    simp [hres]
  · rw [runWrapper_trace_none env es newId hres]
    intro e he
    simp [importWrapper] at he
    rcases he with h | h | h | h <;> subst h <;> rfl

/-- C2 witness: with `PORT="abc"` the wrapper errors and binds no
listener. -/
theorem nonnumeric_port_no_listener_witness :
    (runWrapper true [("PORT", "abc")] ⟨0, ⟨[]⟩, 0⟩ 1).2.2 =
      MainOutcome.uncaughtValueError ∧
    ∀ e ∈ (runWrapper true [("PORT", "abc")] ⟨0, ⟨[]⟩, 0⟩ 1).1,
      isListen e = false :=
  nonnumeric_port_no_listener [("PORT", "abc")] ⟨0, ⟨[]⟩, 0⟩ 1 "abc" rfl rfl

/-- C3: if the `PORT` environment variable is absent, the resolved port is
the integer `8001`, and running the module directly starts the listener on
`0.0.0.0:8001`. -/
theorem default_port_8001 (env : Env) (es : ExampleServerModule)
    (newId : Nat) (h : getenv env "PORT" = none) :
    resolvePort env = some 8001 ∧
    (runWrapper true env es newId).2.2 =
      MainOutcome.listenStarted "0.0.0.0" 8001 := by
  have hres : resolvePort env = some 8001 := by simp [resolvePort, h]
  refine ⟨hres, ?_⟩
  unfold runWrapper
  simp [hres]

/-- C3 witness: in the empty environment the port resolves to 8001. -/
theorem default_port_8001_witness :
    resolvePort [] = some 8001 ∧
    (runWrapper true [] ⟨0, ⟨[]⟩, 0⟩ 1).2.2 =
      MainOutcome.listenStarted "0.0.0.0" 8001 :=
  default_port_8001 [] ⟨0, ⟨[]⟩, 0⟩ 1 rfl

/-- C4: after the wrapper runs, the `example_server` module's
`query_constructor` slot holds exactly the object id of the
`BarQueryConstructor` constructed in step 2, and the trace contains exactly
one assignment into that slot (so no other object is ever installed and at
most one query constructor is active at any time). -/
theorem query_constructor_identity (isMain : Bool) (env : Env)
    (es : ExampleServerModule) (newId : Nat) :
    (runWrapper isMain env es newId).2.1.exampleServer.queryConstructor =
      newId ∧
    (runWrapper isMain env es newId).1.filter isAssignQC =
      [Event.assignQC newId] := by
  constructor
  · rw [runWrapper_module]
    rfl
  · unfold runWrapper
    cases isMain
    · simp [importWrapper, isAssignQC]
    · cases h : resolvePort env <;>
        simp [h, importWrapper, isAssignQC]

/-- C5: registering the health route leaves every pre-existing route
unchanged — the new route table is exactly the old one with the single
`"/health"` route appended, so every pre-existing route (its path and its
handler, hence every response it produces) survives unaltered. -/
theorem add_health_frame (app : Application) :
    (add_health_endpoint app).routes =
      app.routes ++ [⟨"/health", healthHandler⟩] ∧
    (add_health_endpoint app).routes.take app.routes.length = app.routes ∧
    ∀ r ∈ app.routes, r ∈ (add_health_endpoint app).routes := by
  refine ⟨rfl, ?_, ?_⟩
  · simp [add_health_endpoint]
  · intro r hr
    simp [add_health_endpoint]
    exact Or.inl hr

/-- C6: when the module is run directly and the port resolves, the trace is
exactly — in this strict order — load environment, construct the query
constructor, assign it into the slot, attach the health endpoint, read the
port, start the listener; nothing is reordered or skipped and the listener
start is last. -/
theorem bootstrap_order (env : Env) (es : ExampleServerModule)
    (newId : Nat) (p : Int) (h : resolvePort env = some p) :
    (runWrapper true env es newId).1 =
      [Event.loadDotenv, Event.constructQC newId, Event.assignQC newId,
       Event.addHealth, Event.readPort p, Event.listen "0.0.0.0" p] := by
  rw [runWrapper_trace_some env es newId p h]
  rfl

/-- C6 witness: the concrete trace in the empty environment. -/
theorem bootstrap_order_witness :
    (runWrapper true [] ⟨0, ⟨[]⟩, 0⟩ 1).1 =
      [Event.loadDotenv, Event.constructQC 1, Event.assignQC 1,
       Event.addHealth, Event.readPort 8001,
       Event.listen "0.0.0.0" 8001] :=
  bootstrap_order [] ⟨0, ⟨[]⟩, 0⟩ 1 8001 rfl

/-- C7: when imported as a library the `__main__` block does not run — no
listener is started, no port is read — and the module exposes the
configured Application object (the same reference as the base app); when
run directly with a resolving port, the listener is started on `0.0.0.0`
at that port. -/
theorem main_guard (env : Env) (es : ExampleServerModule) (newId : Nat) :
    ((runWrapper false env es newId).2.2 = MainOutcome.notRun ∧
      (∀ e ∈ (runWrapper false env es newId).1,
        isListen e = false ∧ ∀ q, e ≠ Event.readPort q) ∧
      (runWrapper false env es newId).2.1.appRef = es.appId) ∧
    ∀ p, resolvePort env = some p →
      (runWrapper true env es newId).2.2 =
        MainOutcome.listenStarted "0.0.0.0" p := by
  refine ⟨⟨rfl, ?_, rfl⟩, ?_⟩
  · intro e he
    simp [runWrapper, importWrapper] at he
    rcases he with h | h | h | h <;> subst h <;> exact ⟨rfl, fun q => by simp⟩
  · intro p hp
    unfold runWrapper
    simp [hp]

/-- C7 witness: imported, no listener; run directly in the empty
environment, the listener starts on `0.0.0.0:8001`. -/
theorem main_guard_witness :
    (runWrapper false [] ⟨0, ⟨[]⟩, 0⟩ 1).2.2 = MainOutcome.notRun ∧
    (runWrapper true [] ⟨0, ⟨[]⟩, 0⟩ 1).2.2 =
      MainOutcome.listenStarted "0.0.0.0" 8001 :=
  ⟨(main_guard [] ⟨0, ⟨[]⟩, 0⟩ 1).1.1,
   (main_guard [] ⟨0, ⟨[]⟩, 0⟩ 1).2 8001 rfl⟩

/-- C8: if `PORT` is set to a string that `int()` parses as `p`, the
resolved port is `p` and the listener is bound to host `0.0.0.0` on `p`
(the last event of the trace, and the main outcome). -/
theorem numeric_port_binds (env : Env) (es : ExampleServerModule)
    (newId : Nat) (s : String) (p : Int)
    (hs : getenv env "PORT" = some s) (hp : pythonInt s = some p) :
    resolvePort env = some p ∧
    (runWrapper true env es newId).2.2 =
      MainOutcome.listenStarted "0.0.0.0" p ∧
    (runWrapper true env es newId).1.getLast? =
      some (Event.listen "0.0.0.0" p) := by
  have hres : resolvePort env = some p := by simp [resolvePort, hs, hp]
  refine ⟨hres, ?_, ?_⟩
  · unfold runWrapper
    simp [hres]
  · rw [runWrapper_trace_some env es newId p hres]
    rfl

/-- C8 witness: `PORT="9090"` binds `0.0.0.0:9090`. -/
theorem numeric_port_binds_witness :
    resolvePort [("PORT", "9090")] = some 9090 ∧
    (runWrapper true [("PORT", "9090")] ⟨0, ⟨[]⟩, 0⟩ 1).2.2 =
      MainOutcome.listenStarted "0.0.0.0" 9090 ∧
    (runWrapper true [("PORT", "9090")] ⟨0, ⟨[]⟩, 0⟩ 1).1.getLast? =
      some (Event.listen "0.0.0.0" 9090) :=
  numeric_port_binds [("PORT", "9090")] ⟨0, ⟨[]⟩, 0⟩ 1 "9090" 9090 rfl rfl

/-- C9: if `PORT` is set to the empty string, `int("")` raises — the
resolved port is not the default (resolution yields no port at all) and
running the module directly ends in the uncaught error with no listener
bound; the default applies only when the variable is absent. -/
theorem empty_port_errors (env : Env) (es : ExampleServerModule)
    (newId : Nat) (h : getenv env "PORT" = some "") :
    pythonInt "" = none ∧
    resolvePort env = none ∧
    (runWrapper true env es newId).2.2 = MainOutcome.uncaughtValueError ∧
    ∀ e ∈ (runWrapper true env es newId).1, isListen e = false := by
  have hres : resolvePort env = none := by simp [resolvePort, h]; rfl
  refine ⟨rfl, hres, ?_, ?_⟩
  · unfold runWrapper
    simp [hres]
  · rw [runWrapper_trace_none env es newId hres]
    intro e he
    simp [importWrapper] at he
    rcases he with h | h | h | h <;> subst h <;> rfl

/-- C9 witness: the environment `PORT=""` errors with no listener. -/
theorem empty_port_errors_witness :
    pythonInt "" = none ∧
    resolvePort [("PORT", "")] = none ∧
    (runWrapper true [("PORT", "")] ⟨0, ⟨[]⟩, 0⟩ 1).2.2 =
      MainOutcome.uncaughtValueError ∧
    ∀ e ∈ (runWrapper true [("PORT", "")] ⟨0, ⟨[]⟩, 0⟩ 1).1,
      isListen e = false :=
  empty_port_errors [("PORT", "")] ⟨0, ⟨[]⟩, 0⟩ 1 rfl

/-- C10: the Application reference exposed by the wrapper (`app`) is the
very object id of the external base Application — no copy — so the health
route added and the query-constructor substitution are visible through
both references: the shared object's route table is
`add_health_endpoint` of the original and the slot holds the new
constructor. -/
theorem exposed_app_identity (isMain : Bool) (env : Env)
    (es : ExampleServerModule) (newId : Nat) :
    (runWrapper isMain env es newId).2.1.appRef = es.appId ∧
    (runWrapper isMain env es newId).2.1.exampleServer.appId = es.appId ∧
    (runWrapper isMain env es newId).2.1.exampleServer.app =
      add_health_endpoint es.app ∧
    (runWrapper isMain env es newId).2.1.exampleServer.queryConstructor =
      newId := by
  rw [runWrapper_module]
  exact ⟨rfl, rfl, rfl, rfl⟩

end BarServer
